import Mathlib

/-
Verification development for the portfolio page behavior script
(src/script.js).  Every definition below is a shallow embedding of the
corresponding piece of the script: DOM element state is modelled as
records of strings and options, event handlers become pure functions on
those records, and the single asynchronous network call is modelled by an
explicit outcome value passed to the submit handler.
-/

namespace Portfolio

/-! ## String utilities

The script uses two string primitives from the platform:
String.prototype.includes (line 197, the check for a configured
Formspree action) and encodeURIComponent (lines 169-170 and 218-219,
the mailto composition).  Both are embedded executably here. -/

/-- Does the character list start with the given pattern list?
Helper for the substring check used by the includes embedding. -/
def charsStartWith : List Char → List Char → Bool
  | _, [] => true
  | [], _ :: _ => false
  | h :: t, p :: ps => h = p && charsStartWith t ps

/-- Does the pattern occur as a contiguous run inside the haystack?
Embeds String.prototype.includes on character lists. -/
def charsContain : List Char → List Char → Bool
  | [], pat => pat.isEmpty
  | h :: t, pat => charsStartWith (h :: t) pat || charsContain t pat

/-- Embedding of JavaScript String.prototype.includes: true when pat
occurs contiguously inside hay. -/
def strContains (hay pat : String) : Bool :=
  charsContain hay.toList pat.toList

/-- Drop leading whitespace characters from a character list. -/
def dropLeadingSpace : List Char → List Char
  | [] => []
  | c :: cs => if c.isWhitespace then dropLeadingSpace cs else c :: cs

/-- Embedding of JavaScript String.prototype.trim, used on the three
form fields: strip whitespace from both ends of the string. -/
def strTrim (s : String) : String :=
  String.mk (List.reverse (dropLeadingSpace (List.reverse (dropLeadingSpace s.toList))))

/-- Embedding of the email validation regex at src/script.js line 189,
written there as caret, backslash-S-plus, at-sign, backslash-S-plus,
dot, backslash-S-plus, dollar.  The regex (with backtracking) accepts a
string exactly when it can be split as a nonempty run of non-whitespace
characters, an at-sign, a nonempty non-whitespace run, a literal dot,
and a final nonempty non-whitespace run.  Since the at-sign and the dot
are themselves non-whitespace, this holds exactly when every character
is non-whitespace and there are positions i and j with an at-sign at i,
a dot at j, at least one character before i, between i and j, and after
j.  That characterisation is what is computed here. -/
def isEmailShaped (email : String) : Bool :=
  let cs := email.toList
  let n := cs.length
  cs.all (fun c => !c.isWhitespace) &&
  (List.range n).any (fun i =>
    decide (1 ≤ i) && (cs.getD i 'x' = '@') &&
    (List.range n).any (fun j =>
      decide (i + 2 ≤ j) && decide (j + 2 ≤ n) && (cs.getD j 'x' = '.')))

/-- Uppercase hexadecimal digit for a value below 16. -/
def hexDigit (n : Nat) : Char :=
  Char.ofNat (if n < 10 then 48 + n else 55 + n)

/-- UTF-8 byte sequence of a single character, from its code point. -/
def utf8Bytes (c : Char) : List Nat :=
  let n := c.toNat
  if n < 128 then [n]
  else if n < 2048 then [192 + n / 64, 128 + n % 64]
  else if n < 65536 then [224 + n / 4096, 128 + (n / 64) % 64, 128 + n % 64]
  else [240 + n / 262144, 128 + (n / 4096) % 64, 128 + (n / 64) % 64, 128 + n % 64]

/-- Percent-encoding of one byte, as emitted by encodeURIComponent. -/
def percentByte (b : Nat) : String :=
  String.mk ['%', hexDigit (b / 16), hexDigit (b % 16)]

/-- Is the character left unescaped by encodeURIComponent?  The
unreserved set is the ASCII letters and digits together with hyphen,
underscore, dot, exclamation mark, tilde, asterisk, apostrophe and the
two parentheses (code points 45, 95, 46, 33, 126, 42, 39, 40, 41). -/
def isUnreservedChar (c : Char) : Bool :=
  let n := c.toNat
  (65 ≤ n && n ≤ 90) || (97 ≤ n && n ≤ 122) || (48 ≤ n && n ≤ 57) ||
  n = 45 || n = 95 || n = 46 || n = 33 || n = 126 || n = 42 ||
  n = 39 || n = 40 || n = 41

/-- Embedding of the encodeURIComponent builtin used at src/script.js
lines 169-170 and 218-219: unreserved characters pass through, every
other character is written as the percent-encoding of its UTF-8 bytes. -/
def encodeURIComponent (s : String) : String :=
  s.toList.foldr
    (fun c acc =>
      (if isUnreservedChar c then String.mk [c]
       else String.join ((utf8Bytes c).map percentByte)) ++ acc) ""

/-! ## Initialization (src/script.js lines 1-234, IIFE body)

The script runs once at load.  Every querySelector lookup may return
null; the Dom record tracks which of the elements the claims mention are
present.  The script guards most listener attachments, but the modal
overlay click listener at line 130 dereferences the modal container
unconditionally, so a missing modal container makes initialization throw
a TypeError there; the Except models this. -/

/-- Presence of the expected DOM elements at load time. -/
structure Dom where
  yearEl : Bool
  navToggle : Bool
  nav : Bool
  modal : Bool
  modalClose : Bool
  form : Bool
  status : Bool
  mailFallback : Bool
deriving DecidableEq, Repr

/-- Which event listeners initialization managed to attach. -/
structure Handlers where
  navToggleClickAttached : Bool
  modalCloseClickAttached : Bool
  modalOverlayClickAttached : Bool
  documentKeydownAttached : Bool
  mailFallbackClickAttached : Bool
  formSubmitAttached : Bool
deriving DecidableEq, Repr

/-- Embedding of the top-level IIFE body, projected to listener
attachment.  In source order: line 17 attaches the nav toggle click
handler only when the toggle exists (navToggle and-guard); line 129
attaches the close-control click handler only when it exists (modalClose
and-guard); line 130 calls modal.addEventListener with no guard, so when
the modal container is absent the script throws a TypeError and nothing
after line 130 runs; line 135 attaches the document keydown handler;
lines 164 and 175 attach the mail-fallback and submit handlers under
explicit if guards. -/
def initScript (d : Dom) : Except String Handlers :=
  let navAttached := d.navToggle
  let modalCloseAttached := d.modalClose
  if d.modal then
    .ok { navToggleClickAttached := navAttached
          modalCloseClickAttached := modalCloseAttached
          modalOverlayClickAttached := true
          documentKeydownAttached := true
          mailFallbackClickAttached := d.mailFallback
          formSubmitAttached := d.form }
  else
    .error "TypeError: Cannot read properties of null (reading addEventListener)"

/-! ## Mobile navigation toggle (src/script.js lines 17-25) -/

/-- The observable state the nav toggle handler touches: the value of
the aria-expanded attribute on the toggle (none models a null
getAttribute result) and the inline display style of the panel. -/
structure NavState where
  ariaExpanded : Option String
  navDisplay : String
deriving DecidableEq, Repr

/-- Embedding of the click handler at lines 17-25: read whether
aria-expanded is the string true, write back the string form of its
negation, then toggle the panel display between block and the empty
string based on the current display value. -/
def navToggleClick (st : NavState) : NavState :=
  let expanded := st.ariaExpanded = some "true"
  { ariaExpanded := some (if expanded then "false" else "true")
    navDisplay := if st.navDisplay = "block" then "" else "block" }

/-! ## Project filtering (src/script.js lines 68-79) -/

/-- A project card as the filter sees it: the effective category string
(the script reads p.dataset.category with an or-empty default, so the
field holds that defaulted value), the inline display style and the
inline opacity style. -/
structure Card where
  category : String
  display : String
  opacity : String
deriving DecidableEq, Repr

/-- Per-card effect of applyFilter before any timer fires: a matching
card (filter equals the string all, or the category equals the filter)
has its display restored immediately, opacity still pending the
animation frame; a non-matching card has its opacity set to 0
immediately, display removal pending the 180ms timeout. -/
def filterCardImmediate (filter : String) (p : Card) : Card :=
  if filter = "all" ∨ p.category = filter then
    { p with display := "" }
  else
    { p with opacity := "0" }

/-- Per-card effect of applyFilter after the animation frame and the
180ms timeout have both fired: matching cards end with restored display
and opacity 1, non-matching cards end with opacity 0 and display none. -/
def filterCardFinal (filter : String) (p : Card) : Card :=
  if filter = "all" ∨ p.category = filter then
    { p with display := "", opacity := "1" }
  else
    { p with opacity := "0", display := "none" }

/-- applyFilter over the whole card list, immediate effects only. -/
def applyFilterImmediate (filter : String) (cards : List Card) : List Card :=
  cards.map (filterCardImmediate filter)

/-- applyFilter over the whole card list, after all deferred effects. -/
def applyFilterFinal (filter : String) (cards : List Card) : List Card :=
  cards.map (filterCardFinal filter)

/-! ## Modal dialog (src/script.js lines 89-147) -/

/-- Element identity, for focus tracking. -/
abbrev Elem := Nat

/-- Content passed to openModal, captured from the data attributes of
the triggering control (each defaulted to the empty string). -/
structure ModalContent where
  title : String
  desc : String
  image : String
deriving DecidableEq, Repr

/-- The DOM state the modal code touches: the text of the title and
description nodes, the src, alt and display of the image node, the
aria-hidden attribute of the container, the saved lastFocused element,
the currently focused element, the body overflow style, and the identity
of the close control (constant). -/
structure ModalState where
  titleText : String
  descText : String
  imageSrc : String
  imageAlt : String
  imageDisplay : String
  ariaHidden : String
  lastFocused : Option Elem
  activeElement : Elem
  bodyOverflow : String
  modalCloseElem : Elem
deriving DecidableEq, Repr

/-- Embedding of openModal (lines 97-112): save the active element as
lastFocused, write the title and description text, set the image src,
alt and display when the image string is truthy (nonempty) and otherwise
only hide the image node, mark the container visible, focus the close
control and lock body scroll. -/
def openModal (c : ModalContent) (st : ModalState) : ModalState :=
  { st with
    lastFocused := some st.activeElement
    titleText := c.title
    descText := c.desc
    imageSrc := if c.image = "" then st.imageSrc else c.image
    imageAlt := if c.image = "" then st.imageAlt else c.title
    imageDisplay := if c.image = "" then "none" else ""
    ariaHidden := "false"
    activeElement := st.modalCloseElem
    bodyOverflow := "hidden" }

/-- Embedding of closeModal (lines 114-118): mark the container hidden,
refocus the saved lastFocused element when one is present, and restore
body scroll. -/
def closeModal (st : ModalState) : ModalState :=
  { st with
    ariaHidden := "true"
    activeElement := st.lastFocused.getD st.activeElement
    bodyOverflow := "" }

/-- A keyboard event as the document keydown handler reads it. -/
structure KeyEvent where
  key : String
  shiftKey : Bool
deriving DecidableEq, Repr

/-- Embedding of the document keydown handler (lines 135-147), returning
the resulting state paired with whether preventDefault was called.  The
Escape branch closes the modal when aria-hidden is the string false; the
Tab branch, when the modal is open, focus sits on the close control and
shift is not held, prevents the default and refocuses the close control,
and otherwise does nothing. -/
def handleKeydown (e : KeyEvent) (st : ModalState) : ModalState × Bool :=
  let st1 := if e.key = "Escape" ∧ st.ariaHidden = "false" then closeModal st else st
  if e.key = "Tab" ∧ st1.ariaHidden = "false" then
    if st1.activeElement = st1.modalCloseElem ∧ e.shiftKey = false then
      ({ st1 with activeElement := st1.modalCloseElem }, true)
    else (st1, false)
  else (st1, false)

/-! ## Contact form (src/script.js lines 159-223) -/

/-- Raw values of the three form fields at the moment of the event. -/
structure FormFields where
  name : String
  email : String
  message : String
deriving DecidableEq, Repr

/-- Outcome of the one awaited fetch to the configured action.  ok
models a response with resp.ok true; httpError models a non-ok response,
carrying the error field of the parsed JSON body when the body parsed to
an object with one (none when parsing failed or no error field was
present; the empty string stands for a present but falsy error value);
networkError models the fetch call throwing. -/
inductive FetchOutcome where
  | ok : FetchOutcome
  | httpError : Option String → FetchOutcome
  | networkError : FetchOutcome
deriving DecidableEq, Repr

/-- Observable result of one submit event: the final status region text
and inline color (none when the handler never wrote the color), whether
form.reset ran, whether the fetch was issued, and the navigation target
when the handler assigned window.location.href. -/
structure SubmitResult where
  statusText : String
  statusColor : Option String
  didReset : Bool
  didFetch : Bool
  navigatedTo : Option String
deriving DecidableEq, Repr

/-- The mailto URL composed at lines 218-220 of the submit fallback
branch, from the already-trimmed field values. -/
def submitMailtoHref (name email message : String) : String :=
  "mailto:monishp2212@gmail.com?subject=" ++
    encodeURIComponent ("Contact from " ++ name) ++
  "&body=" ++
    encodeURIComponent (message ++ "\n\n— " ++ name ++ "\n" ++ email)

/-- Embedding of the submit handler (lines 176-222).  The handler clears
the status text, trims the three fields, rejects when any is empty
(status text about completing all fields, tomato), rejects when the
trimmed email fails the regex (status text about a valid email, tomato),
and otherwise reads the action attribute with an or-empty default.  When
the action contains the substring formspree.io it performs the fetch: on
an ok response it shows the thanks text in limegreen and resets the
form; on a non-ok response it shows the JSON error field when that is a
truthy value and the generic submission-failed text otherwise, in
tomato, without resetting; on a thrown fetch it shows the network-error
text in tomato without resetting.  Without a formspree action it
navigates to the composed mailto URL, leaving the status text cleared. -/
def handleSubmit (fields : FormFields) (action : Option String)
    (fetch : FetchOutcome) : SubmitResult :=
  let name := strTrim fields.name
  let email := strTrim fields.email
  let message := strTrim fields.message
  if name = "" ∨ email = "" ∨ message = "" then
    { statusText := "Please complete all fields.", statusColor := some "tomato"
      didReset := false, didFetch := false, navigatedTo := none }
  else if isEmailShaped email = false then
    { statusText := "Please enter a valid email address.", statusColor := some "tomato"
      didReset := false, didFetch := false, navigatedTo := none }
  else
    let actionStr := action.getD ""
    if strContains actionStr "formspree.io" then
      match fetch with
      | .ok =>
        { statusText := "Thanks — message sent.", statusColor := some "limegreen"
          didReset := true, didFetch := true, navigatedTo := none }
      | .httpError errField =>
        { statusText :=
            match errField with
            | some s => if s = "" then "Submission failed — try the email fallback." else s
            | none => "Submission failed — try the email fallback."
          statusColor := some "tomato"
          didReset := false, didFetch := true, navigatedTo := none }
      | .networkError =>
        { statusText := "Network error — please use the email fallback."
          statusColor := some "tomato"
          didReset := false, didFetch := true, navigatedTo := none }
    else
      { statusText := "", statusColor := none
        didReset := false, didFetch := false
        navigatedTo := some (submitMailtoHref name email message) }

/-- Embedding of the dedicated mail-fallback click handler (lines
164-173): trim the three fields, compose the subject from the name with
the literal Website substituted when the trimmed name is empty, compose
the body from message, name and email, and navigate to the resulting
mailto URL.  No validation is performed and no other state is touched. -/
def mailFallbackClick (fields : FormFields) : String :=
  let name := strTrim fields.name
  let email := strTrim fields.email
  let message := strTrim fields.message
  "mailto:monishp2212@gmail.com?subject=" ++
    encodeURIComponent ("Contact from " ++ (if name = "" then "Website" else name)) ++
  "&body=" ++
    encodeURIComponent (message ++ "\n\n— " ++ name ++ "\n" ++ email)

/-- Default card used for positional lookups in filter statements. -/
def defaultCard : Card := { category := "", display := "", opacity := "" }

/-! ## Theorems -/

/-- C1, counterexample: the claim says a missing modal container is
tolerated and setup completes without raising an error, but with every
other element present and the modal container absent, initialization
throws a TypeError at the unguarded modal.addEventListener call (line
130). -/
theorem claim_C1_counterexample :
    initScript { yearEl := true, navToggle := true, nav := true, modal := false,
                 modalClose := true, form := true, status := true, mailFallback := true }
      = .error "TypeError: Cannot read properties of null (reading addEventListener)" := by
  rfl

/-- C1, amended: every expected element except the modal container is
tolerated silently (the corresponding handler is simply not attached:
the Handlers fields are, in order, nav toggle click, close-control
click, overlay click, document keydown, mail-fallback click, form
submit), but when the modal container is absent, initialization throws
at the unguarded overlay click-listener attachment and is fatal. -/
theorem claim_C1_amended (d : Dom) :
    (d.modal = true →
      initScript d = .ok ⟨d.navToggle, d.modalClose, true, true, d.mailFallback, d.form⟩)
    ∧ (d.modal = false → ∃ msg, initScript d = .error msg) := by
  constructor
  · intro h
    simp [initScript, h]
  · intro h
    refine ⟨"TypeError: Cannot read properties of null (reading addEventListener)", ?_⟩
    simp [initScript, h]

/-- C1, witness: with only the modal container present, initialization
succeeds and attaches no optional handler. -/
theorem claim_C1_witness :
    initScript ⟨false, false, false, true, false, false, false, false⟩
      = .ok ⟨false, false, true, true, false, false⟩ :=
  (claim_C1_amended ⟨false, false, false, true, false, false, false, false⟩).1 rfl

/-- C4: after applying a filter, the card at any position that matches
the filter (or any card when the filter is the string all) ends visible
with restored display and opacity 1, and any non-matching card has
opacity 0 immediately and ends with display none and opacity 0 once the
180ms timeout fires. -/
theorem claim_C4 (filter : String) (cards : List Card) (i : Nat)
    (hi : i < cards.length) :
    ((filter = "all" ∨ (cards.getD i defaultCard).category = filter) →
        (applyFilterFinal filter cards).getD i defaultCard
          = { cards.getD i defaultCard with display := "", opacity := "1" })
    ∧ (¬ (filter = "all" ∨ (cards.getD i defaultCard).category = filter) →
        ((applyFilterImmediate filter cards).getD i defaultCard).opacity = "0"
        ∧ (applyFilterFinal filter cards).getD i defaultCard
            = { cards.getD i defaultCard with opacity := "0", display := "none" }) := by
  have hmapF : (applyFilterFinal filter cards).getD i defaultCard
      = filterCardFinal filter (cards.getD i defaultCard) := by
    simp [applyFilterFinal, List.getD, List.getElem?_map,
          List.getElem?_eq_getElem hi, Option.getD]
  have hmapI : (applyFilterImmediate filter cards).getD i defaultCard
      = filterCardImmediate filter (cards.getD i defaultCard) := by
    simp [applyFilterImmediate, List.getD, List.getElem?_map,
          List.getElem?_eq_getElem hi, Option.getD]
  constructor
  · intro h
    rw [hmapF]
    unfold filterCardFinal
    rw [if_pos h]
  · intro h
    rw [hmapF, hmapI]
    unfold filterCardFinal filterCardImmediate
    rw [if_neg h, if_neg h]
    exact ⟨rfl, rfl⟩

/-- C4, witness: filtering the two-card list for the web category keeps
the web card visible and hides the other card. -/
theorem claim_C4_witness :
    (applyFilterFinal "web" [{ category := "web", display := "none", opacity := "0" },
                             { category := "ml", display := "", opacity := "1" }]).getD 0 defaultCard
      = { category := "web", display := "", opacity := "1" }
    ∧ ((applyFilterImmediate "web" [{ category := "web", display := "none", opacity := "0" },
                                    { category := "ml", display := "", opacity := "1" }]).getD 1 defaultCard).opacity = "0"
    ∧ (applyFilterFinal "web" [{ category := "web", display := "none", opacity := "0" },
                               { category := "ml", display := "", opacity := "1" }]).getD 1 defaultCard
      = { category := "ml", display := "none", opacity := "0" } :=
  ⟨(claim_C4 "web" [{ category := "web", display := "none", opacity := "0" },
      { category := "ml", display := "", opacity := "1" }] 0 (by decide)).1 (by decide),
   ((claim_C4 "web" [{ category := "web", display := "none", opacity := "0" },
      { category := "ml", display := "", opacity := "1" }] 1 (by decide)).2 (by decide)).1,
   ((claim_C4 "web" [{ category := "web", display := "none", opacity := "0" },
      { category := "ml", display := "", opacity := "1" }] 1 (by decide)).2 (by decide)).2⟩

/-- C5: opening the modal with content C writes exactly the title and
description of C into the dialog, and closing after an open restores
keyboard focus to the element that was focused immediately before the
open. -/
theorem claim_C5 (c : ModalContent) (st : ModalState) :
    (openModal c st).titleText = c.title
    ∧ (openModal c st).descText = c.desc
    ∧ (closeModal (openModal c st)).activeElement = st.activeElement := by
  simp [openModal, closeModal]

/-- C6: pressing Escape while the modal is open (aria-hidden false)
runs closeModal, which marks it hidden, restores focus to the saved
element and re-enables scrolling; pressing Escape while it is closed
(aria-hidden true) changes nothing and prevents no default. -/
theorem claim_C6 (st : ModalState) (sh : Bool) :
    (st.ariaHidden = "false" →
        handleKeydown { key := "Escape", shiftKey := sh } st = (closeModal st, false)
        ∧ (closeModal st).ariaHidden = "true"
        ∧ (closeModal st).bodyOverflow = ""
        ∧ (closeModal st).activeElement = st.lastFocused.getD st.activeElement)
    ∧ (st.ariaHidden = "true" →
        handleKeydown { key := "Escape", shiftKey := sh } st = (st, false)) := by
  constructor
  · intro h
    refine ⟨?_, by simp [closeModal], by simp [closeModal], by simp [closeModal]⟩
    simp [handleKeydown, closeModal, h]
  · intro h
    simp [handleKeydown, h]

/-- C6, witness: Escape on a concrete open state closes it (the
ModalState fields are, in order, title text, description text, image
src, image alt, image display, aria-hidden, lastFocused, active element,
body overflow, close-control identity), and Escape on a concrete closed
state is a no-op. -/
theorem claim_C6_witness :
    handleKeydown ⟨"Escape", false⟩
        ⟨"t", "d", "", "", "none", "false", some 7, 3, "hidden", 3⟩
      = (⟨"t", "d", "", "", "none", "true", some 7, 7, "", 3⟩, false)
    ∧ handleKeydown ⟨"Escape", false⟩
        ⟨"t", "d", "", "", "none", "true", none, 5, "", 3⟩
      = (⟨"t", "d", "", "", "none", "true", none, 5, "", 3⟩, false) :=
  ⟨((claim_C6 ⟨"t", "d", "", "", "none", "false", some 7, 3, "hidden", 3⟩ false).1 rfl).1,
   (claim_C6 ⟨"t", "d", "", "", "none", "true", none, 5, "", 3⟩ false).2 rfl⟩

/-- C7, counterexample: the claim says every Tab keydown while the modal
is open forces focus back onto the close control regardless of which
element has focus, but with the modal open and focus on an element other
than the close control (active element 1, close control 0) the handler
leaves focus where it is and does not prevent the default. -/
theorem claim_C7_counterexample :
    (handleKeydown ⟨"Tab", false⟩
        ⟨"t", "d", "", "", "none", "false", some 7, 1, "hidden", 0⟩)
      = (⟨"t", "d", "", "", "none", "false", some 7, 1, "hidden", 0⟩, false)
    ∧ ((handleKeydown ⟨"Tab", false⟩
        ⟨"t", "d", "", "", "none", "false", some 7, 1, "hidden", 0⟩).1).activeElement
      ≠ (⟨"t", "d", "", "", "none", "false", some 7, 1, "hidden", 0⟩ : ModalState).modalCloseElem := by
  constructor
  · rfl
  · decide

/-- C7, amended: for a Tab keydown while the modal is open, the handler
forces focus back onto the close control and prevents the default only
when focus is already on the close control and Shift is not held;
otherwise (focus elsewhere, or Shift held) it does nothing. -/
theorem claim_C7_amended (e : KeyEvent) (st : ModalState)
    (hk : e.key = "Tab") (ho : st.ariaHidden = "false") :
    (st.activeElement = st.modalCloseElem ∧ e.shiftKey = false →
        handleKeydown e st = ({ st with activeElement := st.modalCloseElem }, true))
    ∧ ((st.activeElement ≠ st.modalCloseElem ∨ e.shiftKey = true) →
        handleKeydown e st = (st, false)) := by
  constructor
  · intro h
    simp [handleKeydown, hk, ho, h.1, h.2]
  · intro h
    rcases h with h | h
    · simp [handleKeydown, hk, ho, h]
    · simp [handleKeydown, hk, ho, h]

/-- C7, witness: Tab without Shift while focus sits on the close control
of an open modal keeps focus there and prevents the default. -/
theorem claim_C7_witness :
    handleKeydown ⟨"Tab", false⟩
        ⟨"t", "d", "", "", "none", "false", some 7, 3, "hidden", 3⟩
      = (⟨"t", "d", "", "", "none", "false", some 7, 3, "hidden", 3⟩, true) :=
  (claim_C7_amended ⟨"Tab", false⟩
      ⟨"t", "d", "", "", "none", "false", some 7, 3, "hidden", 3⟩ rfl rfl).1 ⟨rfl, rfl⟩

/-- C8, counterexample: the claim says the attribute and the display
state never diverge after a click, but from the state where
aria-expanded is the string true while the panel display is empty, the
click writes aria-expanded false yet sets the display to block, so the
panel is shown while the attribute says collapsed. -/
theorem claim_C8_counterexample :
    ¬ ((navToggleClick ⟨some "true", ""⟩).navDisplay = "block"
        ↔ (navToggleClick ⟨some "true", ""⟩).ariaExpanded = some "true") := by
  decide

/-- C8, amended: the click handler inverts the aria-expanded attribute
and toggles the panel display independently of it; provided the panel
display is block exactly when aria-expanded is the string true before
the click, the same equivalence holds after the click. -/
theorem claim_C8_amended (st : NavState)
    (h : st.navDisplay = "block" ↔ st.ariaExpanded = some "true") :
    ((navToggleClick st).navDisplay = "block"
      ↔ (navToggleClick st).ariaExpanded = some "true")
    ∧ (navToggleClick st).ariaExpanded
        = some (if st.ariaExpanded = some "true" then "false" else "true") := by
  by_cases hexp : st.ariaExpanded = some "true"
  · have hdisp : st.navDisplay = "block" := h.mpr hexp
    simp [navToggleClick, hexp, hdisp]
  · have hdisp : ¬ st.navDisplay = "block" := fun hb => hexp (h.mp hb)
    simp [navToggleClick, hexp, hdisp]

/-- C8, witness: clicking the toggle in the synchronized collapsed state
(attribute false, display empty) yields the synchronized expanded state
and writes the inverted attribute. -/
theorem claim_C8_witness :
    ((navToggleClick ⟨some "false", ""⟩).navDisplay = "block"
      ↔ (navToggleClick ⟨some "false", ""⟩).ariaExpanded = some "true")
    ∧ (navToggleClick ⟨some "false", ""⟩).ariaExpanded
        = some (if (some "false" : Option String) = some "true" then "false" else "true") :=
  claim_C8_amended ⟨some "false", ""⟩ (by decide)

/-- C10: opening the modal with empty image content hides the image
element but leaves its src and alt untouched (so a src written by an
earlier open persists), while the title and description are rewritten on
every open. -/
theorem claim_C10 (t d : String) (st : ModalState) :
    (openModal ⟨t, d, ""⟩ st).imageSrc = st.imageSrc
    ∧ (openModal ⟨t, d, ""⟩ st).imageAlt = st.imageAlt
    ∧ (openModal ⟨t, d, ""⟩ st).imageDisplay = "none"
    ∧ (openModal ⟨t, d, ""⟩ st).titleText = t
    ∧ (openModal ⟨t, d, ""⟩ st).descText = d := by
  simp [openModal]

/-- C2: for a submission that passes validation and whose action is a
configured formspree endpoint, an ok response resets the form and shows
the success text in limegreen; a non-ok response leaves the form unreset
and shows either the generic failure text or the error carried by the
response body, in tomato; a thrown fetch leaves the form unreset and
shows the network-error text in tomato. -/
theorem claim_C2 (fields : FormFields) (action : Option String) (errField : Option String)
    (hn : strTrim fields.name ≠ "") (he : strTrim fields.email ≠ "")
    (hm : strTrim fields.message ≠ "")
    (hv : isEmailShaped (strTrim fields.email) = true)
    (ha : strContains (action.getD "") "formspree.io" = true) :
    (handleSubmit fields action .ok).didReset = true
    ∧ (handleSubmit fields action .ok).statusText = "Thanks — message sent."
    ∧ (handleSubmit fields action .ok).statusColor = some "limegreen"
    ∧ (handleSubmit fields action (.httpError errField)).didReset = false
    ∧ (handleSubmit fields action (.httpError errField)).statusColor = some "tomato"
    ∧ ((handleSubmit fields action (.httpError errField)).statusText
          = "Submission failed — try the email fallback."
        ∨ errField = some (handleSubmit fields action (.httpError errField)).statusText)
    ∧ (handleSubmit fields action .networkError).didReset = false
    ∧ (handleSubmit fields action .networkError).statusText
        = "Network error — please use the email fallback."
    ∧ (handleSubmit fields action .networkError).statusColor = some "tomato" := by
  have hval : isEmailShaped (strTrim fields.email) = false ↔ False := by simp [hv]
  refine ⟨?_, ?_, ?_, ?_, ?_, ?_, ?_, ?_, ?_⟩ <;>
    simp only [handleSubmit, hn, he, hm, hval, ha, if_false, if_true, or_self,
               or_false, false_or, ite_false, ite_true, if_neg, reduceIte]
  all_goals
    first
      | rfl
      | (cases errField with
          | none => simp
          | some s =>
              by_cases hs : s = "" <;> simp [hs])

/-- C2, witness: a concrete valid submission against a formspree action
under each of the three fetch outcomes. -/
theorem claim_C2_witness :
    (handleSubmit ⟨"Ann", "a@b.c", "hi"⟩ (some "https://formspree.io/f/x") .ok).didReset = true
    ∧ (handleSubmit ⟨"Ann", "a@b.c", "hi"⟩ (some "https://formspree.io/f/x") .ok).statusText
        = "Thanks — message sent."
    ∧ (handleSubmit ⟨"Ann", "a@b.c", "hi"⟩ (some "https://formspree.io/f/x") .ok).statusColor
        = some "limegreen"
    ∧ (handleSubmit ⟨"Ann", "a@b.c", "hi"⟩ (some "https://formspree.io/f/x")
        (.httpError none)).didReset = false
    ∧ (handleSubmit ⟨"Ann", "a@b.c", "hi"⟩ (some "https://formspree.io/f/x")
        (.httpError none)).statusColor = some "tomato"
    ∧ ((handleSubmit ⟨"Ann", "a@b.c", "hi"⟩ (some "https://formspree.io/f/x")
          (.httpError none)).statusText = "Submission failed — try the email fallback."
        ∨ (none : Option String) = some (handleSubmit ⟨"Ann", "a@b.c", "hi"⟩
            (some "https://formspree.io/f/x") (.httpError none)).statusText)
    ∧ (handleSubmit ⟨"Ann", "a@b.c", "hi"⟩ (some "https://formspree.io/f/x")
        .networkError).didReset = false
    ∧ (handleSubmit ⟨"Ann", "a@b.c", "hi"⟩ (some "https://formspree.io/f/x")
        .networkError).statusText = "Network error — please use the email fallback."
    ∧ (handleSubmit ⟨"Ann", "a@b.c", "hi"⟩ (some "https://formspree.io/f/x")
        .networkError).statusColor = some "tomato" :=
  claim_C2 ⟨"Ann", "a@b.c", "hi"⟩ (some "https://formspree.io/f/x") none
    (by decide) (by decide) (by decide) (by decide) (by decide)

/-- C3: whenever the trimmed email fails the regex shape, the submission
is blocked before any fetch or mailto navigation, and a validation
message (the complete-all-fields text when some field is empty, the
valid-email text otherwise) is shown in tomato. -/
theorem claim_C3 (fields : FormFields) (action : Option String) (fetch : FetchOutcome)
    (hbad : isEmailShaped (strTrim fields.email) = false) :
    (handleSubmit fields action fetch).didFetch = false
    ∧ (handleSubmit fields action fetch).navigatedTo = none
    ∧ (handleSubmit fields action fetch).statusColor = some "tomato"
    ∧ ((handleSubmit fields action fetch).statusText = "Please complete all fields."
        ∨ (handleSubmit fields action fetch).statusText
            = "Please enter a valid email address.") := by
  by_cases hempty : strTrim fields.name = "" ∨ strTrim fields.email = ""
      ∨ strTrim fields.message = ""
  · simp [handleSubmit, hempty]
  · simp [handleSubmit, hempty, hbad]

/-- C3, witness: a concrete submission with a malformed email is blocked
with the valid-email message and performs no fetch or navigation. -/
theorem claim_C3_witness :
    (handleSubmit ⟨"Ann", "not an email", "hi"⟩ (some "https://formspree.io/f/x") .ok).didFetch
      = false
    ∧ (handleSubmit ⟨"Ann", "not an email", "hi"⟩ (some "https://formspree.io/f/x") .ok).navigatedTo
      = none
    ∧ (handleSubmit ⟨"Ann", "not an email", "hi"⟩ (some "https://formspree.io/f/x") .ok).statusColor
      = some "tomato"
    ∧ ((handleSubmit ⟨"Ann", "not an email", "hi"⟩ (some "https://formspree.io/f/x") .ok).statusText
        = "Please complete all fields."
      ∨ (handleSubmit ⟨"Ann", "not an email", "hi"⟩ (some "https://formspree.io/f/x") .ok).statusText
        = "Please enter a valid email address.") :=
  claim_C3 ⟨"Ann", "not an email", "hi"⟩ (some "https://formspree.io/f/x") .ok (by decide)

/-- C9: the dedicated mail-fallback control navigates to the composed
mailto URL for every combination of field values, with no validation,
substituting the literal Website into the subject when the trimmed name
is empty; in particular, with an empty name, an empty message and a
malformed email it still navigates, to the concrete URL computed here. -/
theorem claim_C9 (fields : FormFields) :
    mailFallbackClick fields
      = "mailto:monishp2212@gmail.com?subject=" ++
          encodeURIComponent ("Contact from " ++
            (if strTrim fields.name = "" then "Website" else strTrim fields.name)) ++
        "&body=" ++
          encodeURIComponent (strTrim fields.message ++ "\n\n— " ++ strTrim fields.name
            ++ "\n" ++ strTrim fields.email)
    ∧ mailFallbackClick ⟨"", "not an email", ""⟩
      = "mailto:monishp2212@gmail.com?subject=Contact%20from%20Website&body=%0A%0A%E2%80%94%20%0Anot%20an%20email" := by
  exact ⟨rfl, by decide⟩

end Portfolio
